import Mathlib

set_option maxRecDepth 8000

/-!
Shallow embedding of the `mun-relay` Discord bot (src/main.rs, src/types.rs).

Modelling conventions:
* Discord snowflake IDs are `Nat`.
* Rust panics (`unwrap`, `expect`, map indexing) are modelled as
  `Except Panic` errors; each panic site gets its own constructor.
* The platform gateway (serenity) is an environment record: member lookup
  results, the first reaction observed within the timeout, the stream of
  channel messages observed within the reply window, and the `content_safe`
  sanitizer as an abstract `String → String` function.
* Side effects (say/reply/react/DM/role mutations) are collected in an
  event trace; platform send failures (which the Rust code propagates
  with `?`) are not injected, since no claim concerns them.
* Rust `HashSet<RoleId>` values handed to `remove_roles`/`add_roles`
  are modelled as `Finset Nat` (the Rust iteration order is unspecified;
  only the set content is observable in the claims).
* Rust `str::to_lowercase` is modelled by `lowerString` (a per-character
  lowercasing; the names of interest are ASCII).
-/

/-- Panic sites of the program, one constructor per Rust `unwrap`/`expect`/
map-index that can abort: config ID getters (`types.rs` `.parse().unwrap()`),
the committee-channel cache `expect` (main.rs:99), the emoji
`chars().next().unwrap()` (main.rs:168), the `recipient_id.unwrap()` calls
(main.rs:117, 228), the `msg.guild(ctx).await.unwrap()` (main.rs:308), and
the `guild.roles[..]` map index (main.rs:313). -/
inductive Panic where
  | configParse
  | channelExpect
  | emojiUnwrap
  | recipientUnwrap
  | guildUnwrap
  | roleIndex
deriving DecidableEq, Repr

deriving instance DecidableEq for Except

/-- Model of Rust `str::parse::<u64>`: an optional leading `+`, then one or
more decimal digits, rejecting overflow past `2^64 - 1`. Implemented over
the character list so that it reduces inside the kernel. -/
def parseU64 (s : String) : Option Nat :=
  let cs := if s.data.head? = some '+' then s.data.drop 1 else s.data
  if cs.isEmpty then none
  else if cs.all Char.isDigit then
    let n := cs.foldl (fun acc c => acc * 10 + (c.toNat - 48)) 0
    if n < 2 ^ 64 then some n else none
  else none

/-- Model of Rust `str::to_lowercase`, as a per-character map (the inputs of
interest are ASCII). -/
def lowerString (s : String) : String := String.mk (s.data.map Char.toLower)

/-- `Committee` from src/types.rs: IDs are kept as strings in the
deserialized form. -/
structure Committee where
  name : String
  role_id : String
  channel_id : String
deriving DecidableEq, Repr

/-- `Config` from src/types.rs. -/
structure Config where
  token : String
  guild_id : String
  delegate_role_id : String
  staff_role_id : String
  chair_role_id : String
  committees : List Committee
deriving DecidableEq, Repr

/-- `Committee::role_id` getter (types.rs:51-53): `self.role_id.parse().unwrap()`;
`none` models the panic. -/
def Committee.role_id? (c : Committee) : Option Nat := parseU64 c.role_id

/-- `Committee::channel_id` getter (types.rs:55-57). -/
def Committee.channel_id? (c : Committee) : Option Nat := parseU64 c.channel_id

/-- `Config::guild_id` getter (types.rs:18-20). -/
def Config.guild_id? (c : Config) : Option Nat := parseU64 c.guild_id

/-- `Config::delegate_role_id` getter (types.rs:22-24). -/
def Config.delegate_role_id? (c : Config) : Option Nat := parseU64 c.delegate_role_id

/-- `Config::staff_role_id` getter (types.rs:26-28). -/
def Config.staff_role_id? (c : Config) : Option Nat := parseU64 c.staff_role_id

/-- `Config::chair_role_id` getter (types.rs:30-32). -/
def Config.chair_role_id? (c : Config) : Option Nat := parseU64 c.chair_role_id

/-- `POSITIVE_REACTION` (main.rs:25). -/
def POSITIVE_REACTION : Char := '✅'

/-- `NEGATIVE_REACTION` (main.rs:26). -/
def NEGATIVE_REACTION : Char := '❌'

/-- `SENT_REACTION` (main.rs:27). -/
def SENT_REACTION : Char := '📨'

/-- Observable effects issued through the gateway client. -/
inductive Event where
  | say (channelId : Nat) (content : String)
  | reply (toMsgId : Nat) (content : String)
  | react (toMsgId : Nat) (emoji : Char)
  | dm (userId : Nat) (content : String)
  | removeRoles (roles : Finset Nat)
  | addRoles (roles : Finset Nat)
deriving DecidableEq

/-- The invoking command message. -/
structure Msg where
  id : Nat
  channelId : Nat
  authorId : Nat
deriving DecidableEq, Repr

/-- A message observed in the committee channel during the reply window.
`messageReference` models serenity's `Option<MessageReference>` whose
`message_id` field is itself an `Option<MessageId>` (main.rs:250-256). -/
structure ReplyMsg where
  id : Nat
  authorId : Nat
  content : String
  messageReference : Option (Option Nat)
deriving DecidableEq

/-- Gateway responses consumed by one `forward` invocation:
`memberRoles` is the `get_member` result (`none` = the lookup errored),
`channelFound` is whether the committee channel is in the cache,
`committeeMsgId` is the ID assigned to the posted committee message,
`sanitize` is `content_safe`, `reaction` is the emoji data of the first
reaction observed within the 10-minute timeout (`none` = timeout), and
`replies` are the committee-channel messages observed within the
10-minute reply window. -/
structure ForwardEnv where
  memberRoles : Option (List Nat)
  channelFound : Bool
  committeeMsgId : Nat
  sanitize : String → String
  reaction : Option String
  replies : List ReplyMsg

/-- The cached guild for `join`: `roleName rid` models `guild.roles[&rid].name`
with `none` meaning the key is absent (a Rust map-index panic). -/
structure Guild where
  roleName : Nat → Option String

/-- Gateway responses consumed by one `join` invocation: `guildId` is
`msg.guild_id`, `guild` the cache lookup behind `msg.guild(ctx)`
(`none` = the `unwrap` panics), `memberRoles` the roles of
`msg.member(ctx)` (lookup success assumed; its `?` failure path carries
no events and no claim concerns it). -/
structure JoinEnv where
  guildId : Option Nat
  guild : Option Guild
  memberRoles : List Nat

/-- serenity user mention rendering, `<@id>`. -/
def mention (id : Nat) : String := "<@" ++ toString id ++ ">"

/-- `MessageBuilder::push_quote_line`. -/
def quoteLine (s : String) : String := "> " ++ s ++ "\n"

/-- The committee-channel announcement built at main.rs:108-135. The
`recipient_id.unwrap()` at main.rs:117 sits inside the `is_external`
branch of the builder and is modelled by the inner match. -/
def committeeAnnouncement (authorId : Nat) (recipientId : Option Nat)
    (isExternal : Bool) (cleaned : String) : Except Panic String :=
  match (if isExternal then
           match recipientId with
           | none => Except.error Panic.recipientUnwrap
           | some r => Except.ok (" to forward message to " ++ mention r)
         else Except.ok "") with
  | .error p => .error p
  | .ok recipientPart =>
    .ok ("Received request from " ++ mention authorId ++ recipientPart ++ ":\n"
      ++ quoteLine cleaned ++ "\n"
      ++ (if isExternal then "Use the reactions below to approve or deny this request." else "")
      ++ "Reply to this message" ++ (if isExternal then " after voting " else " ")
      ++ "to send a response.")

/-- The confirmation replied to the requester at main.rs:143-152
(`push_bold_safe` rendered as plain bold; the committee name is
config-controlled text). -/
def confirmation (committeeName : String) (isExternal : Bool) : String :=
  "Your message has been forwarded to **" ++ committeeName ++ "**"
    ++ (if isExternal then " for approval" else "") ++ "."

/-- The approved/rejected outcome sentence used both as the committee reply
(main.rs:174-178, 188-192) and the requester reply (main.rs:219-223). -/
def outcomeMsg (approved : Bool) : String :=
  "This request has been **" ++ (if approved then "approved" else "rejected") ++ "**."

/-- The DM payload built at main.rs:234-238. -/
def dmContent (authorId : Nat) (cleaned : String) : String :=
  "Received message from " ++ mention authorId ++ ":\n" ++ quoteLine cleaned

/-- The relayed-reply message built at main.rs:270-274. -/
def relayContent (replierId : Nat) (cleanedReply : String) : String :=
  "Received reply from " ++ mention replierId ++ ":\n" ++ quoteLine cleanedReply

/-- The voting step (main.rs:157-215): the first reaction observed within
the timeout (`reaction`, carrying the emoji `as_data()` string) decides;
`chars().next().unwrap()` on that string is the `emojiUnwrap` panic site.
Returns the committee-side reply events and the `approved` flag. -/
def votePhase (committeeMsgId : Nat) (reaction : Option String) :
    Except Panic (List Event × Bool) :=
  match reaction with
  | some emojiData =>
    match emojiData.toList with
    | [] => .error .emojiUnwrap
    | c :: _ =>
      if c = POSITIVE_REACTION then
        .ok ([Event.reply committeeMsgId (outcomeMsg true)], true)
      else if c = NEGATIVE_REACTION then
        .ok ([Event.reply committeeMsgId (outcomeMsg false)], false)
      else
        .ok ([Event.reply committeeMsgId "Invalid reaction; rejecting request."], false)
  | none =>
    .ok ([Event.reply committeeMsgId "No consensus reached in 10 minutes; rejecting request."], false)

/-- The approved-delivery step (main.rs:227-241): on approval, open a DM to
`recipient_id.unwrap()` and deliver the sanitized payload. -/
def deliveryEvents (recipientId : Option Nat) (approved : Bool)
    (authorId : Nat) (cleaned : String) : Except Panic (List Event) :=
  if approved then
    match recipientId with
    | none => .error .recipientUnwrap
    | some r => .ok [Event.dm r (dmContent authorId cleaned)]
  else .ok []

/-- The reply-reference filter from main.rs:250-256. -/
def replyTargets (committeeMsgId : Nat) (rm : ReplyMsg) : Bool :=
  match rm.messageReference with
  | some (some m) => m == committeeMsgId
  | some none => false
  | none => false

/-- The reply-relay loop (main.rs:244-279): each observed channel message
whose reply reference targets the committee message is sanitized, relayed
to the requester's channel attributed to the replier, and acknowledged
with the sent reaction. -/
def relayTrace (sanitize : String → String) (requesterChannelId committeeMsgId : Nat)
    (replies : List ReplyMsg) : List Event :=
  (replies.filter (replyTargets committeeMsgId)).flatMap fun rm =>
    [Event.say requesterChannelId (relayContent rm.authorId (sanitize rm.content)),
     Event.react rm.id SENT_REACTION]

/-- The committee lookup at main.rs:81-84: first configured committee whose
role the member holds; each scanned committee's `role_id()` getter may panic. -/
def findCommitteeByRole : List Committee → List Nat → Except Panic (Option Committee)
  | [], _ => .ok none
  | c :: restCs, roles =>
    match Committee.role_id? c with
    | none => .error .configParse
    | some rid =>
      if roles.contains rid then .ok (some c)
      else findCommitteeByRole restCs roles

/-- The `forward` command (main.rs:49-282), as a trace-producing function.
Control flow mirrors the source: guild-ID getter parse, member resolution,
delegate-role gate, committee resolution by role, channel getter parse and
cache `expect`, announcement + reactions + confirmation, the external-only
vote, the approved-only DM delivery, then the reply relay. -/
def forward (cfg : Config) (msg : Msg) (recipientId : Option Nat)
    (rest : String) (env : ForwardEnv) : Except Panic (List Event) :=
  match Config.guild_id? cfg with
  | none => .error .configParse
  | some _ =>
  match env.memberRoles with
  | none => .ok [Event.say msg.channelId "Umm... have I made your acquaintance?"]
  | some memberRoles =>
  match Config.delegate_role_id? cfg with
  | none => .error .configParse
  | some delegateRole =>
  if !(memberRoles.contains delegateRole) then
    .ok [Event.say msg.channelId "This command is only available to delegates."]
  else
  match findCommitteeByRole cfg.committees memberRoles with
  | .error p => .error p
  | .ok none => .ok [Event.say msg.channelId "Sorry, but I\x27m not sure which committee you\x27re on."]
  | .ok (some committee) =>
  match Committee.channel_id? committee with
  | none => .error .configParse
  | some committeeChannel =>
  if !env.channelFound then .error .channelExpect
  else
    let isExternal := recipientId.isSome
    let cleaned := env.sanitize rest
    match committeeAnnouncement msg.authorId recipientId isExternal cleaned with
    | .error p => .error p
    | .ok announce =>
      let preTrace :=
        [Event.say committeeChannel announce]
          ++ (if isExternal then
                [Event.react env.committeeMsgId POSITIVE_REACTION,
                 Event.react env.committeeMsgId NEGATIVE_REACTION]
              else [])
          ++ [Event.reply msg.id (confirmation committee.name isExternal)]
      if isExternal then
        match votePhase env.committeeMsgId env.reaction with
        | .error p => .error p
        | .ok (voteEvs, approved) =>
          match deliveryEvents recipientId approved msg.authorId cleaned with
          | .error p => .error p
          | .ok deliverEvs =>
            .ok (preTrace ++ voteEvs ++ [Event.reply msg.id (outcomeMsg approved)]
                  ++ deliverEvs
                  ++ relayTrace env.sanitize msg.channelId env.committeeMsgId env.replies)
      else
        .ok (preTrace ++ relayTrace env.sanitize msg.channelId env.committeeMsgId env.replies)

/-- The committee-name match predicate from main.rs:312-315: the lowercased
query is compared against the guild role's lowercased display name, and
against the committee's configured name as-is. -/
def committeeQueryMatch (g : Guild) (query : String) (c : Committee) :
    Except Panic Bool :=
  match Committee.role_id? c with
  | none => .error .configParse
  | some rid =>
    match g.roleName rid with
    | none => .error .roleIndex
    | some rn => .ok (query == lowerString rn || query == c.name)

/-- The committee lookup of `join` (main.rs:312-322). -/
def findCommitteeByName (g : Guild) (query : String) :
    List Committee → Except Panic (Option Committee)
  | [] => .ok none
  | c :: restCs =>
    match committeeQueryMatch g query c with
    | .error p => .error p
    | .ok true => .ok (some c)
    | .ok false => findCommitteeByName g query restCs

/-- The committee role-ID set collected at main.rs:326-330 (every
configured committee's `role_id()` getter is invoked). -/
def committeeRoleIdSet : List Committee → Except Panic (Finset Nat)
  | [] => .ok ∅
  | c :: restCs =>
    match Committee.role_id? c with
    | none => .error .configParse
    | some rid =>
      match committeeRoleIdSet restCs with
      | .error p => .error p
      | .ok s => .ok (insert rid s)

/-- The `join` command (main.rs:288-362): guild gate, case-lowered query
resolution, intersection-based removal batch, difference-based addition
batch, positive-reaction acknowledgment. Note main.rs:334-337 intersects
the member's roles with ALL committee role IDs, the resolved committee's
own role included. -/
def join (cfg : Config) (msg : Msg) (argsRest : String) (env : JoinEnv) :
    Except Panic (List Event) :=
  match (match env.guildId with
         | some gid =>
           match Config.guild_id? cfg with
           | none => Except.error Panic.configParse
           | some g => Except.ok (gid == g)
         | none => Except.ok false) with
  | .error p => .error p
  | .ok inValidGuild =>
  if !inValidGuild then .ok [Event.say msg.channelId "I\x27m not configured to work here."]
  else
  match env.guild with
  | none => .error .guildUnwrap
  | some guild =>
  let query := lowerString argsRest
  match findCommitteeByName guild query cfg.committees with
  | .error p => .error p
  | .ok none => .ok [Event.reply msg.id "Sorry, I couldn\x27t find a committee by that name."]
  | .ok (some committee) =>
  match committeeRoleIdSet cfg.committees with
  | .error p => .error p
  | .ok committeeRoleIds =>
    let memberRoleIds : Finset Nat := env.memberRoles.toFinset
    let otherCommitteeRoles : Finset Nat := committeeRoleIds ∩ memberRoleIds
    let removeEvs : List Event :=
      if otherCommitteeRoles = ∅ then [] else [Event.removeRoles otherCommitteeRoles]
    match Committee.role_id? committee with
    | none => .error .configParse
    | some committeeRoleId =>
    match Config.delegate_role_id? cfg with
    | none => .error .configParse
    | some delegateRoleId =>
      let intendedRoles : Finset Nat := {committeeRoleId, delegateRoleId}
      let rolesToAdd : Finset Nat := intendedRoles \ memberRoleIds
      let addEvs : List Event :=
        if rolesToAdd = ∅ then [] else [Event.addRoles rolesToAdd]
      .ok (removeEvs ++ addEvs ++ [Event.react msg.id POSITIVE_REACTION])

/-- Config getter methods, used to record which getters `main` invokes. -/
inductive ConfigGetter where
  | token
  | guildId
  | delegateRoleId
  | staffRoleId
  | chairRoleId
  | committeeRoleId
  | committeeChannelId
deriving DecidableEq, Repr

/-- The Config getters `main` (main.rs:364-399) invokes before the client
starts serving commands: `config.token()` at main.rs:371 and main.rs:385.
No ID getter is touched at startup. -/
def mainStartupGetters : List ConfigGetter := [ConfigGetter.token, ConfigGetter.token]

/-- The approved-outcome of the vote as a function of the first observed
reaction: approval holds exactly when a reaction arrived in time and its
emoji data starts with the positive reaction. -/
def voteApproved (reaction : Option String) : Bool :=
  match reaction with
  | some s =>
    match s.toList with
    | c :: _ => c == POSITIVE_REACTION
    | [] => false
  | none => false

/-! ### Concrete fixtures used by counterexamples and witnesses -/

/-- Fixture: the lowercase finance committee record. -/
def cFin : Committee := { name := "finance", role_id := "10", channel_id := "20" }

/-- Fixture: a well-formed config with one committee whose configured name
is lowercase. -/
def cfgFin : Config :=
  { token := "t", guild_id := "1", delegate_role_id := "5", staff_role_id := "6",
    chair_role_id := "7", committees := [cFin] }

/-- Fixture: two committees, legal first, finance second. -/
def cfgLegalFin : Config :=
  { cfgFin with committees :=
      [{ name := "legal", role_id := "11", channel_id := "21" },
       { name := "finance", role_id := "10", channel_id := "20" }] }

/-- Fixture: one committee whose configured name carries an uppercase letter. -/
def cfgCapitalFin : Config :=
  { cfgFin with committees := [{ name := "Finance", role_id := "10", channel_id := "20" }] }

/-- Fixture: a config whose guild ID string is not a decimal number. -/
def cfgBadGuildId : Config := { cfgFin with guild_id := "abc" }

/-- Fixture: the invoking command message. -/
def msgFix : Msg := { id := 7, channelId := 8, authorId := 9 }

/-- Fixture: guild role names for roles 10 and 11. -/
def guildFin : Guild :=
  { roleName := fun rid =>
      if rid = 10 then some "Finance Role"
      else if rid = 11 then some "Legal Role" else none }

/-- Fixture: guild whose role 10 has a display name unrelated to the
committee's configured name. -/
def guildFinRole : Guild :=
  { roleName := fun rid => if rid = 10 then some "Fin Role" else none }

/-- Fixture: a member already holding exactly the finance committee role
and the delegate role. -/
def joinEnvConfigured : JoinEnv :=
  { guildId := some 1, guild := some guildFin, memberRoles := [10, 5] }

/-- Fixture: a member holding both committees' roles plus the delegate role. -/
def joinEnvTwoCommittees : JoinEnv :=
  { guildId := some 1, guild := some guildFin, memberRoles := [11, 10, 5] }

/-- Fixture: a member holding only the delegate role, in the guild with the
capitalized committee name. -/
def joinEnvCapital : JoinEnv :=
  { guildId := some 1, guild := some guildFinRole, memberRoles := [5] }

/-- Fixture: a forward environment for a delegate on the finance committee. -/
def fwdEnv (reaction : Option String) (replies : List ReplyMsg) : ForwardEnv :=
  { memberRoles := some [10, 5], channelFound := true, committeeMsgId := 30,
    sanitize := id, reaction := reaction, replies := replies }


/-- Fixture: a forward environment whose member lacks the delegate role. -/
def envNoDelegate : ForwardEnv := { fwdEnv none [] with memberRoles := some [99] }

/-- Fixture: the capitalized committee record of `cfgCapitalFin`. -/
def cFinCap : Committee := { name := "Finance", role_id := "10", channel_id := "20" }

/-- Fixture: a committee-channel reply targeting the committee message. -/
def rmFix : ReplyMsg :=
  { id := 40, authorId := 41, content := "reply", messageReference := some (some 30) }

/-- A reaction observation is well formed when its emoji data is nonempty;
the platform guarantees this for real reaction events. -/
def reactionWellFormed (rea : Option String) : Bool :=
  match rea with
  | some s => !s.data.isEmpty
  | none => true

/-- Predicate picking out sent-reaction acknowledgments in a trace. -/
def isSentReact : Event → Bool
  | .react _ em => em == SENT_REACTION
  | _ => false

/-- Fixture: a forward environment with an approving reaction and one
targeting reply. -/
def envWit : ForwardEnv := fwdEnv (some "✅") [rmFix]

/-! ### Helper lemmas -/

/-- The committee announcement for an external request, exactly as the
builder of main.rs:108-135 renders it. -/
def announceExternal (authorId r : Nat) (cleaned : String) : String :=
  "Received request from " ++ mention authorId ++ (" to forward message to " ++ mention r) ++ ":\n"
    ++ quoteLine cleaned ++ "\n"
    ++ "Use the reactions below to approve or deny this request."
    ++ "Reply to this message" ++ " after voting " ++ "to send a response."

/-- The committee announcement for an internal request (empty external
pushes kept, mirroring the builder). -/
def announceInternal (authorId : Nat) (cleaned : String) : String :=
  "Received request from " ++ mention authorId ++ "" ++ ":\n"
    ++ quoteLine cleaned ++ "\n" ++ ""
    ++ "Reply to this message" ++ " " ++ "to send a response."

theorem committeeAnnouncement_external (a r : Nat) (cl : String) :
    committeeAnnouncement a (some r) true cl = Except.ok (announceExternal a r cl) := rfl

theorem committeeAnnouncement_internal (a : Nat) (rid : Option Nat) (cl : String) :
    committeeAnnouncement a rid false cl = Except.ok (announceInternal a cl) := rfl

theorem deliveryEvents_some (r : Nat) (approved : Bool) (authorId : Nat) (cleaned : String) :
    deliveryEvents (some r) approved authorId cleaned =
      Except.ok (if approved then [Event.dm r (dmContent authorId cleaned)] else []) := by
  cases approved <;> rfl

theorem votePhase_reply_ok (cid : Nat) (rea : Option String)
    (h : reactionWellFormed rea = true) :
    ∃ cm, votePhase cid rea = Except.ok ([Event.reply cid cm], voteApproved rea) := by
  cases rea with
  | none => exact ⟨_, rfl⟩
  | some s =>
    simp only [reactionWellFormed, Bool.not_eq_true', List.isEmpty_eq_false_iff_exists_mem] at h
    cases hl : s.data with
    | nil =>
      exfalso
      obtain ⟨c, hc⟩ := h
      simp [hl] at hc
    | cons c cs =>
      by_cases h1 : c = POSITIVE_REACTION
      · exact ⟨outcomeMsg true, by simp [votePhase, voteApproved, hl, h1]⟩
      · by_cases h2 : c = NEGATIVE_REACTION
        · exact ⟨outcomeMsg false, by
            simp [votePhase, voteApproved, hl, h1, h2,
              show NEGATIVE_REACTION ≠ POSITIVE_REACTION from by decide]⟩
        · exact ⟨"Invalid reaction; rejecting request.",
            by simp [votePhase, voteApproved, hl, h1, h2]⟩

theorem dm_not_mem_relayTrace (san : String → String) (rq cm : Nat)
    (rs : List ReplyMsg) (u : Nat) (s : String) :
    Event.dm u s ∉ relayTrace san rq cm rs := by
  intro hmem
  simp only [relayTrace, List.mem_flatMap] at hmem
  obtain ⟨rm, _, hin⟩ := hmem
  simp at hin

theorem mem_relayTrace_of_targets (san : String → String) (rq cm : Nat)
    (rs : List ReplyMsg) (rm : ReplyMsg) (h1 : rm ∈ rs)
    (h2 : replyTargets cm rm = true) :
    Event.say rq (relayContent rm.authorId (san rm.content)) ∈ relayTrace san rq cm rs ∧
    Event.react rm.id SENT_REACTION ∈ relayTrace san rq cm rs := by
  constructor <;>
    exact List.mem_flatMap.mpr ⟨rm, List.mem_filter.mpr ⟨h1, h2⟩, by simp⟩

theorem sent_react_mem_relayTrace (san : String → String) (rq cm : Nat)
    (rs : List ReplyMsg) (i : Nat)
    (h : Event.react i SENT_REACTION ∈ relayTrace san rq cm rs) :
    ∃ rm, rm ∈ rs ∧ replyTargets cm rm = true ∧ rm.id = i := by
  simp only [relayTrace, List.mem_flatMap] at h
  obtain ⟨rm, hrm, hin⟩ := h
  obtain ⟨h1, h2⟩ := List.mem_filter.mp hrm
  refine ⟨rm, h1, h2, ?_⟩
  simp only [List.mem_cons, List.not_mem_nil, or_false] at hin
  rcases hin with hin | hin
  · exact absurd hin (by simp)
  · cases hin
    rfl

theorem countP_sent_relayTrace (san : String → String) (rq cm : Nat)
    (rs : List ReplyMsg) :
    (relayTrace san rq cm rs).countP isSentReact
      = (rs.filter (replyTargets cm)).length := by
  unfold relayTrace
  induction rs.filter (replyTargets cm) with
  | nil => simp
  | cons rm t ih =>
    simp only [List.flatMap_cons, List.countP_append, ih, List.length_cons]
    simp [List.countP_cons, isSentReact]
    omega

theorem forward_internal_unfold (cfg : Config) (msg : Msg) (rest : String)
    (env : ForwardEnv) (g d ch : Nat) (roles : List Nat) (c : Committee)
    (hg : Config.guild_id? cfg = some g) (hm : env.memberRoles = some roles)
    (hd : Config.delegate_role_id? cfg = some d) (hdr : roles.contains d = true)
    (hc : findCommitteeByRole cfg.committees roles = Except.ok (some c))
    (hch : Committee.channel_id? c = some ch) (hcf : env.channelFound = true) :
    forward cfg msg none rest env =
      Except.ok ([Event.say ch (announceInternal msg.authorId (env.sanitize rest)),
                  Event.reply msg.id (confirmation c.name false)]
        ++ relayTrace env.sanitize msg.channelId env.committeeMsgId env.replies) := by
  have hdr2 : d ∈ roles := by simpa using hdr
  simp [forward, hg, hm, hd, hdr2, hc, hch, hcf, committeeAnnouncement_internal]

theorem forward_external_unfold (cfg : Config) (msg : Msg) (r : Nat) (rest : String)
    (env : ForwardEnv) (g d ch : Nat) (roles : List Nat) (c : Committee)
    (voteEvs : List Event) (apr : Bool)
    (hg : Config.guild_id? cfg = some g) (hm : env.memberRoles = some roles)
    (hd : Config.delegate_role_id? cfg = some d) (hdr : roles.contains d = true)
    (hc : findCommitteeByRole cfg.committees roles = Except.ok (some c))
    (hch : Committee.channel_id? c = some ch) (hcf : env.channelFound = true)
    (hv : votePhase env.committeeMsgId env.reaction = Except.ok (voteEvs, apr)) :
    forward cfg msg (some r) rest env =
      Except.ok (([Event.say ch (announceExternal msg.authorId r (env.sanitize rest)),
                   Event.react env.committeeMsgId POSITIVE_REACTION,
                   Event.react env.committeeMsgId NEGATIVE_REACTION,
                   Event.reply msg.id (confirmation c.name true)]
                  ++ voteEvs ++ [Event.reply msg.id (outcomeMsg apr)]
                  ++ (if apr then [Event.dm r (dmContent msg.authorId (env.sanitize rest))] else []))
        ++ relayTrace env.sanitize msg.channelId env.committeeMsgId env.replies) := by
  have hdr2 : d ∈ roles := by simpa using hdr
  simp [forward, hg, hm, hd, hdr2, hc, hch, hcf, hv, committeeAnnouncement_external,
    deliveryEvents_some]

theorem findCommitteeByRole_error (cs : List Committee) (roles : List Nat) (p : Panic)
    (h : findCommitteeByRole cs roles = Except.error p) : p = Panic.configParse := by
  induction cs with
  | nil => simp [findCommitteeByRole] at h
  | cons c t ih =>
    unfold findCommitteeByRole at h
    cases hr : Committee.role_id? c with
    | none =>
      simp only [hr] at h
      injection h with h2
      exact h2.symm
    | some rid =>
      simp only [hr] at h
      split at h
      · exact absurd h (by simp)
      · exact ih h

theorem votePhase_error (cid : Nat) (rea : Option String) (p : Panic)
    (h : votePhase cid rea = Except.error p) : p = Panic.emojiUnwrap := by
  cases rea with
  | none => simp [votePhase] at h
  | some s =>
    simp only [votePhase] at h
    split at h
    · injection h with h2
      exact h2.symm
    · split at h
      · simp at h
      · split at h <;> simp at h

/-- C10: the `recipient_id.unwrap()` calls in `forward` (inside the
committee-announcement builder and in the approved-delivery branch) are
always guarded: the approved flag can only be true on the external path,
and the path is external exactly when the recipient parsed as `some`, so
`forward` never aborts at the `recipientUnwrap` panic site for any config,
message, arguments or gateway environment. -/
theorem c10_recipient_unwrap_never_panics (cfg : Config) (msg : Msg)
    (recipientId : Option Nat) (rest : String) (env : ForwardEnv) :
    forward cfg msg recipientId rest env ≠ Except.error Panic.recipientUnwrap := by
  unfold forward
  cases hg : Config.guild_id? cfg with
  | none => simp
  | some g =>
  cases hm : env.memberRoles with
  | none => simp
  | some roles =>
  cases hd : Config.delegate_role_id? cfg with
  | none => simp
  | some d =>
  cases hdr : roles.contains d with
  | false =>
    have hdr2 : d ∉ roles := by simpa using hdr
    simp [hdr2]
  | true =>
  have hdr2 : d ∈ roles := by simpa using hdr
  cases hc : findCommitteeByRole cfg.committees roles with
  | error p =>
    have hp := findCommitteeByRole_error cfg.committees roles p hc
    simp [hdr2, hc, hp]
  | ok oc =>
  cases oc with
  | none => simp [hdr2, hc]
  | some c =>
  cases hch : Committee.channel_id? c with
  | none => simp [hdr2, hc, hch]
  | some ch =>
  cases hcf : env.channelFound with
  | false => simp [hdr2, hc, hch, hcf]
  | true =>
  cases recipientId with
  | none => simp [hdr2, hc, hch, hcf, committeeAnnouncement_internal]
  | some r =>
    cases hv : votePhase env.committeeMsgId env.reaction with
    | error p =>
      have hp := votePhase_error env.committeeMsgId env.reaction p hv
      simp [hdr2, hc, hch, hcf, hv, hp, committeeAnnouncement_external]
    | ok vp =>
      obtain ⟨evs, apr⟩ := vp
      simp [hdr2, hc, hch, hcf, hv, committeeAnnouncement_external, deliveryEvents_some]

/-- C8: for every resolvable guild member who lacks the delegate role,
`forward` produces exactly one event — the delegate-only error reply in
the invoking channel — so it never posts to any committee channel (any
channel other than the invoking one receives nothing). -/
theorem c8_delegate_only_error_no_committee_post (cfg : Config) (msg : Msg)
    (recipientId : Option Nat) (rest : String) (env : ForwardEnv)
    (g d : Nat) (roles : List Nat)
    (hg : Config.guild_id? cfg = some g)
    (hm : env.memberRoles = some roles)
    (hd : Config.delegate_role_id? cfg = some d)
    (hdr : roles.contains d = false) :
    forward cfg msg recipientId rest env =
      Except.ok [Event.say msg.channelId "This command is only available to delegates."]
    ∧ ∀ comm ∈ cfg.committees, ∀ chId s, Committee.channel_id? comm = some chId →
        chId ≠ msg.channelId →
        Event.say chId s ∉ [Event.say msg.channelId "This command is only available to delegates."] := by
  constructor
  · have hdr2 : d ∉ roles := by simpa using hdr
    simp [forward, hg, hm, hd, hdr2]
  · intro comm _ chId s _ hne hmem
    simp only [List.mem_cons, List.not_mem_nil, or_false] at hmem
    exact hne (by injection hmem)

/-- C4: for every authorized `forward` invocation, the DM delivery to the
recipient happens exactly when the request is external (a recipient was
named) and the vote approved; an internal request skips the voting phase
entirely (its trace is just the announcement, the confirmation, and the
relay events); and in every case the trace ends with the reply-relay
phase. -/
theorem c4_dm_iff_external_approved (cfg : Config) (msg : Msg)
    (recipientId : Option Nat) (rest : String) (env : ForwardEnv)
    (g d ch : Nat) (roles : List Nat) (c : Committee)
    (hg : Config.guild_id? cfg = some g) (hm : env.memberRoles = some roles)
    (hd : Config.delegate_role_id? cfg = some d) (hdr : roles.contains d = true)
    (hc : findCommitteeByRole cfg.committees roles = Except.ok (some c))
    (hch : Committee.channel_id? c = some ch) (hcf : env.channelFound = true)
    (hem : reactionWellFormed env.reaction = true) :
    ∃ tr, forward cfg msg recipientId rest env = Except.ok tr
      ∧ ((∃ u s, Event.dm u s ∈ tr) ↔
           (recipientId.isSome = true ∧ voteApproved env.reaction = true))
      ∧ (recipientId = none →
           tr = [Event.say ch (announceInternal msg.authorId (env.sanitize rest)),
                 Event.reply msg.id (confirmation c.name false)]
               ++ relayTrace env.sanitize msg.channelId env.committeeMsgId env.replies)
      ∧ ∃ pre, tr = pre ++ relayTrace env.sanitize msg.channelId env.committeeMsgId env.replies := by
  cases recipientId with
  | none =>
    refine ⟨_, forward_internal_unfold cfg msg rest env g d ch roles c hg hm hd hdr hc hch hcf,
      ?_, fun _ => rfl, ⟨_, rfl⟩⟩
    constructor
    · rintro ⟨u, s, hmem⟩
      exfalso
      rcases List.mem_append.mp hmem with hpre | hrel
      · simp at hpre
      · exact dm_not_mem_relayTrace _ _ _ _ _ _ hrel
    · rintro ⟨h1, _⟩
      simp at h1
  | some r =>
    obtain ⟨cm, hv⟩ := votePhase_reply_ok env.committeeMsgId env.reaction hem
    refine ⟨_, forward_external_unfold cfg msg r rest env g d ch roles c
      [Event.reply env.committeeMsgId cm] (voteApproved env.reaction)
      hg hm hd hdr hc hch hcf hv, ?_, ?_, ⟨_, rfl⟩⟩
    · constructor
      · rintro ⟨u, s, hmem⟩
        refine ⟨rfl, ?_⟩
        rcases List.mem_append.mp hmem with hpre | hrel
        · cases hapr : voteApproved env.reaction with
          | true => rfl
          | false =>
            exfalso
            rw [hapr] at hpre
            simp at hpre
        · exact absurd hrel (dm_not_mem_relayTrace _ _ _ _ _ _)
      · rintro ⟨_, hapr⟩
        refine ⟨r, dmContent msg.authorId (env.sanitize rest), ?_⟩
        rw [hapr]
        simp
    · intro hnone
      exact absurd hnone (Option.some_ne_none r)

/-- C6: the committee-channel announcement embeds the payload obtained by
applying the sanitizer exactly once to the raw command text, and any DM
the workflow delivers carries that very same payload string. -/
theorem c6_payload_sanitized_once (cfg : Config) (msg : Msg)
    (recipientId : Option Nat) (rest : String) (env : ForwardEnv)
    (g d ch : Nat) (roles : List Nat) (c : Committee)
    (hg : Config.guild_id? cfg = some g) (hm : env.memberRoles = some roles)
    (hd : Config.delegate_role_id? cfg = some d) (hdr : roles.contains d = true)
    (hc : findCommitteeByRole cfg.committees roles = Except.ok (some c))
    (hch : Committee.channel_id? c = some ch) (hcf : env.channelFound = true)
    (hem : reactionWellFormed env.reaction = true) :
    ∃ tr, forward cfg msg recipientId rest env = Except.ok tr
      ∧ ((∃ r, recipientId = some r ∧
            tr.head? = some (Event.say ch (announceExternal msg.authorId r (env.sanitize rest))))
         ∨ (recipientId = none ∧
            tr.head? = some (Event.say ch (announceInternal msg.authorId (env.sanitize rest)))))
      ∧ (∀ u s, Event.dm u s ∈ tr → s = dmContent msg.authorId (env.sanitize rest)) := by
  cases recipientId with
  | none =>
    refine ⟨_, forward_internal_unfold cfg msg rest env g d ch roles c hg hm hd hdr hc hch hcf,
      Or.inr ⟨rfl, rfl⟩, ?_⟩
    intro u s hmem
    rcases List.mem_append.mp hmem with hpre | hrel
    · simp at hpre
    · exact absurd hrel (dm_not_mem_relayTrace _ _ _ _ _ _)
  | some r =>
    obtain ⟨cm, hv⟩ := votePhase_reply_ok env.committeeMsgId env.reaction hem
    refine ⟨_, forward_external_unfold cfg msg r rest env g d ch roles c
      [Event.reply env.committeeMsgId cm] (voteApproved env.reaction)
      hg hm hd hdr hc hch hcf hv, Or.inl ⟨r, rfl, rfl⟩, ?_⟩
    intro u s hmem
    rcases List.mem_append.mp hmem with hpre | hrel
    · cases hapr : voteApproved env.reaction with
      | false =>
        rw [hapr] at hpre
        simp at hpre
      | true =>
        rw [hapr] at hpre
        simp at hpre
        exact hpre.2
    · exact absurd hrel (dm_not_mem_relayTrace _ _ _ _ _ _)

/-- C9: every committee-channel message observed in the reply window whose
reply reference targets the forwarded committee message yields a relayed
say in the requester's channel (sanitized, attributed to the replier) and
a sent-reaction acknowledgment; sent reactions arise only from targeting
replies; and the relay handles the whole sequence of targeting replies
(one acknowledgment per targeting reply). -/
theorem c9_reply_relay_sequence (cfg : Config) (msg : Msg)
    (recipientId : Option Nat) (rest : String) (env : ForwardEnv)
    (g d ch : Nat) (roles : List Nat) (c : Committee)
    (hg : Config.guild_id? cfg = some g) (hm : env.memberRoles = some roles)
    (hd : Config.delegate_role_id? cfg = some d) (hdr : roles.contains d = true)
    (hc : findCommitteeByRole cfg.committees roles = Except.ok (some c))
    (hch : Committee.channel_id? c = some ch) (hcf : env.channelFound = true)
    (hem : reactionWellFormed env.reaction = true) :
    ∃ pre tr, forward cfg msg recipientId rest env = Except.ok tr
      ∧ tr = pre ++ relayTrace env.sanitize msg.channelId env.committeeMsgId env.replies
      ∧ (∀ rm ∈ env.replies, replyTargets env.committeeMsgId rm = true →
           Event.say msg.channelId (relayContent rm.authorId (env.sanitize rm.content)) ∈ tr
           ∧ Event.react rm.id SENT_REACTION ∈ tr)
      ∧ (∀ i, Event.react i SENT_REACTION
            ∈ relayTrace env.sanitize msg.channelId env.committeeMsgId env.replies →
           ∃ rm, rm ∈ env.replies ∧ replyTargets env.committeeMsgId rm = true ∧ rm.id = i)
      ∧ (relayTrace env.sanitize msg.channelId env.committeeMsgId env.replies).countP isSentReact
          = (env.replies.filter (replyTargets env.committeeMsgId)).length := by
  cases recipientId with
  | none =>
    refine ⟨_, _, forward_internal_unfold cfg msg rest env g d ch roles c hg hm hd hdr hc hch hcf,
      rfl, ?_, fun i h => sent_react_mem_relayTrace _ _ _ _ _ h,
      countP_sent_relayTrace _ _ _ _⟩
    intro rm hin htar
    have hmems := mem_relayTrace_of_targets env.sanitize msg.channelId env.committeeMsgId
      env.replies rm hin htar
    exact ⟨List.mem_append.mpr (Or.inr hmems.1), List.mem_append.mpr (Or.inr hmems.2)⟩
  | some r =>
    obtain ⟨cm, hv⟩ := votePhase_reply_ok env.committeeMsgId env.reaction hem
    refine ⟨_, _, forward_external_unfold cfg msg r rest env g d ch roles c
      [Event.reply env.committeeMsgId cm] (voteApproved env.reaction)
      hg hm hd hdr hc hch hcf hv,
      rfl, ?_, fun i h => sent_react_mem_relayTrace _ _ _ _ _ h,
      countP_sent_relayTrace _ _ _ _⟩
    intro rm hin htar
    have hmems := mem_relayTrace_of_targets env.sanitize msg.channelId env.committeeMsgId
      env.replies rm hin htar
    exact ⟨List.mem_append.mpr (Or.inr hmems.1), List.mem_append.mpr (Or.inr hmems.2)⟩

/-- C5: for an authorized external request, the first observed reaction
decides the vote: a positive reaction approves (committee and requester
told "approved", DM delivered), a negative reaction rejects, any other
reaction rejects through the invalid-reaction reply, and a timeout rejects
with the no-consensus reply — in the last three cases the requester is
told "rejected" and no DM is sent. -/
theorem c5_first_reaction_decides (cfg : Config) (msg : Msg) (r : Nat)
    (rest : String) (env : ForwardEnv) (g d ch : Nat) (roles : List Nat) (c : Committee)
    (hg : Config.guild_id? cfg = some g) (hm : env.memberRoles = some roles)
    (hd : Config.delegate_role_id? cfg = some d) (hdr : roles.contains d = true)
    (hc : findCommitteeByRole cfg.committees roles = Except.ok (some c))
    (hch : Committee.channel_id? c = some ch) (hcf : env.channelFound = true) :
    (∀ s ec ecs, env.reaction = some s → s.toList = ec :: ecs →
      ∃ tr, forward cfg msg (some r) rest env = Except.ok tr
        ∧ (ec = POSITIVE_REACTION →
             Event.reply env.committeeMsgId (outcomeMsg true) ∈ tr
             ∧ Event.reply msg.id (outcomeMsg true) ∈ tr
             ∧ Event.dm r (dmContent msg.authorId (env.sanitize rest)) ∈ tr)
        ∧ (ec = NEGATIVE_REACTION →
             Event.reply env.committeeMsgId (outcomeMsg false) ∈ tr
             ∧ Event.reply msg.id (outcomeMsg false) ∈ tr
             ∧ ∀ u s2, Event.dm u s2 ∉ tr)
        ∧ (ec ≠ POSITIVE_REACTION → ec ≠ NEGATIVE_REACTION →
             Event.reply env.committeeMsgId "Invalid reaction; rejecting request." ∈ tr
             ∧ Event.reply msg.id (outcomeMsg false) ∈ tr
             ∧ ∀ u s2, Event.dm u s2 ∉ tr))
    ∧ (env.reaction = none →
      ∃ tr, forward cfg msg (some r) rest env = Except.ok tr
        ∧ Event.reply env.committeeMsgId
            "No consensus reached in 10 minutes; rejecting request." ∈ tr
        ∧ Event.reply msg.id (outcomeMsg false) ∈ tr
        ∧ ∀ u s2, Event.dm u s2 ∉ tr) := by
  constructor
  · intro s ec ecs hrea hl
    by_cases h1 : ec = POSITIVE_REACTION
    · have hv : votePhase env.committeeMsgId env.reaction =
          Except.ok ([Event.reply env.committeeMsgId (outcomeMsg true)], true) := by
        rw [hrea]
        simp only [votePhase]
        rw [hl]
        simp [h1]
      refine ⟨_, forward_external_unfold cfg msg r rest env g d ch roles c
        [Event.reply env.committeeMsgId (outcomeMsg true)] true
        hg hm hd hdr hc hch hcf hv, ?_, ?_, ?_⟩
      · intro _
        refine ⟨by simp, by simp, by simp⟩
      · intro h2
        exact absurd (h1.symm.trans h2) (by decide)
      · intro hne _
        exact absurd h1 hne
    · by_cases h2 : ec = NEGATIVE_REACTION
      · have hv : votePhase env.committeeMsgId env.reaction =
            Except.ok ([Event.reply env.committeeMsgId (outcomeMsg false)], false) := by
          rw [hrea]
          simp only [votePhase]
          rw [hl]
          simp [h1, h2, show NEGATIVE_REACTION ≠ POSITIVE_REACTION from by decide]
        refine ⟨_, forward_external_unfold cfg msg r rest env g d ch roles c
          [Event.reply env.committeeMsgId (outcomeMsg false)] false
          hg hm hd hdr hc hch hcf hv, ?_, ?_, ?_⟩
        · intro hp
          exact absurd (h2.symm.trans hp) (by decide)
        · intro _
          refine ⟨by simp, by simp, ?_⟩
          intro u s2 hmem
          rcases List.mem_append.mp hmem with hpre | hrel
          · simp at hpre
          · exact dm_not_mem_relayTrace _ _ _ _ _ _ hrel
        · intro _ hne2
          exact absurd h2 hne2
      · have hv : votePhase env.committeeMsgId env.reaction =
            Except.ok ([Event.reply env.committeeMsgId
              "Invalid reaction; rejecting request."], false) := by
          rw [hrea]
          simp only [votePhase]
          rw [hl]
          simp [h1, h2]
        refine ⟨_, forward_external_unfold cfg msg r rest env g d ch roles c
          [Event.reply env.committeeMsgId "Invalid reaction; rejecting request."] false
          hg hm hd hdr hc hch hcf hv, ?_, ?_, ?_⟩
        · intro hp
          exact absurd hp h1
        · intro hp
          exact absurd hp h2
        · intro _ _
          refine ⟨by simp, by simp, ?_⟩
          intro u s2 hmem
          rcases List.mem_append.mp hmem with hpre | hrel
          · simp at hpre
          · exact dm_not_mem_relayTrace _ _ _ _ _ _ hrel
  · intro hrea
    have hv : votePhase env.committeeMsgId env.reaction =
        Except.ok ([Event.reply env.committeeMsgId
          "No consensus reached in 10 minutes; rejecting request."], false) := by
      rw [hrea]
      rfl
    refine ⟨_, forward_external_unfold cfg msg r rest env g d ch roles c
      [Event.reply env.committeeMsgId
        "No consensus reached in 10 minutes; rejecting request."] false
      hg hm hd hdr hc hch hcf hv, by simp, by simp, ?_⟩
    intro u s2 hmem
    rcases List.mem_append.mp hmem with hpre | hrel
    · simp at hpre
    · exact dm_not_mem_relayTrace _ _ _ _ _ _ hrel

/-- C1: evaluating `join` for a member who already holds exactly the target
committee's role (10) and the delegate role (5) shows a second invocation
issuing a `remove_roles` mutation that strips the member's own committee
role — main.rs:334-337 intersects the member's roles with ALL committee
role IDs, the resolved one included — so the operation is not mutation-free
(and the member ends without the committee role), although the positive
reaction acknowledgment is still issued. -/
theorem c1_join_rerun_issues_removal :
    join cfgFin msgFix "finance" joinEnvConfigured =
      Except.ok [Event.removeRoles {10}, Event.react msgFix.id POSITIVE_REACTION] := by
  decide

/-- C2: with a member holding the legal (11) and finance (10) committee
roles plus the delegate role, `join finance` passes the removal mutation
the full intersection {11, 10}, which contains the resolved committee's
own role 10 — contradicting the claim that the resolved role is never in
the removal set (and since the add set is computed against the pre-removal
role snapshot, no add follows, leaving the member without the finance
role). -/
theorem c2_removal_set_contains_resolved_role :
    join cfgLegalFin msgFix "finance" joinEnvTwoCommittees =
      Except.ok [Event.removeRoles {11, 10}, Event.react msgFix.id POSITIVE_REACTION]
    ∧ (10 : Nat) ∈ ({11, 10} : Finset Nat) := by
  decide

/-- C3 counterexample: the query "FINANCE" equals the configured committee
name "Finance" case-insensitively, yet `join` fails to resolve it (the
guild role's display name "Fin Role" being unrelated), replying with the
not-found error and performing no mutation — main.rs:314 compares the
lowercased query against the configured name verbatim. -/
theorem c3_counterexample_capitalized_name :
    join cfgCapitalFin msgFix "FINANCE" joinEnvCapital =
      Except.ok [Event.reply msgFix.id "Sorry, I couldn\x27t find a committee by that name."]
    ∧ lowerString "FINANCE" = lowerString cFinCap.name := by
  decide

/-- C3 (amended): the `join` name match compares the lowercased query
case-insensitively against the guild role's display name but verbatim
against the committee's configured name: the outcome is exactly
`lowerString argsRest == lowerString rn || lowerString argsRest == c.name`,
so role-name matching is fully case-insensitive while configured-name
matching succeeds for a case-differing query only when the configured name
is already lowercase. -/
theorem c3_name_match_characterization (g : Guild) (c : Committee)
    (argsRest rn : String) (rid : Nat)
    (h1 : Committee.role_id? c = some rid) (h2 : g.roleName rid = some rn) :
    committeeQueryMatch g (lowerString argsRest) c =
      Except.ok (lowerString argsRest == lowerString rn || lowerString argsRest == c.name)
    ∧ (lowerString argsRest = lowerString rn →
        committeeQueryMatch g (lowerString argsRest) c = Except.ok true) := by
  constructor
  · simp [committeeQueryMatch, h1, h2]
  · intro hq
    simp [committeeQueryMatch, h1, h2, hq]

/-- Witness for the amended C3 theorem at the capitalized-committee
fixture. -/
theorem c3_name_match_witness :
    Committee.role_id? cFinCap = some 10
    ∧ guildFinRole.roleName 10 = some "Fin Role"
    ∧ (committeeQueryMatch guildFinRole (lowerString "FINANCE") cFinCap =
         Except.ok (lowerString "FINANCE" == lowerString "Fin Role"
           || lowerString "FINANCE" == cFinCap.name)
       ∧ (lowerString "FINANCE" = lowerString "Fin Role" →
           committeeQueryMatch guildFinRole (lowerString "FINANCE") cFinCap =
             Except.ok true)) :=
  ⟨by decide, by decide,
   c3_name_match_characterization guildFinRole cFinCap "FINANCE" "Fin Role" 10
     (by decide) (by decide)⟩

/-- C7 counterexample: a config whose guild ID is the non-numeric string
"abc" still deserializes into a `Config` value, the startup path of `main`
(main.rs:364-399) invokes no ID getter — only `token` — and the parse
failure instead surfaces as a panic inside the first `forward` invocation
that reads the ID. -/
theorem c7_counterexample_parse_not_at_startup :
    Config.guild_id? cfgBadGuildId = none
    ∧ ConfigGetter.guildId ∉ mainStartupGetters
    ∧ forward cfgBadGuildId msgFix none "hi" (fwdEnv none []) =
        Except.error Panic.configParse := by
  decide

/-- C7 (amended): an unparseable guild-ID string is not a startup failure:
`main` reads only the token before serving commands, and the parse failure
aborts the first command that reads the ID — under such a config every
`forward` invocation panics at the config-parse site. -/
theorem c7_id_parse_deferred (cfg : Config) (msg : Msg) (recipientId : Option Nat)
    (rest : String) (env : ForwardEnv)
    (h : Config.guild_id? cfg = none) :
    forward cfg msg recipientId rest env = Except.error Panic.configParse
    ∧ ConfigGetter.guildId ∉ mainStartupGetters := by
  constructor
  · unfold forward
    rw [h]
  · decide

/-- Witness for the amended C7 theorem at the bad-guild-ID fixture. -/
theorem c7_id_parse_deferred_witness :
    Config.guild_id? cfgBadGuildId = none
    ∧ (forward cfgBadGuildId msgFix none "hello" (fwdEnv none []) =
         Except.error Panic.configParse
       ∧ ConfigGetter.guildId ∉ mainStartupGetters) :=
  ⟨by decide,
   c7_id_parse_deferred cfgBadGuildId msgFix none "hello" (fwdEnv none []) (by decide)⟩

/-- Witness for the C8 theorem: a member with roles `[99]` lacks the
delegate role 5 and gets exactly the delegate-only reply. -/
theorem c8_delegate_only_witness :
    Config.guild_id? cfgFin = some 1
    ∧ envNoDelegate.memberRoles = some [99]
    ∧ Config.delegate_role_id? cfgFin = some 5
    ∧ ([99] : List Nat).contains 5 = false
    ∧ (forward cfgFin msgFix none "x" envNoDelegate =
         Except.ok [Event.say msgFix.channelId "This command is only available to delegates."]
       ∧ ∀ comm ∈ cfgFin.committees, ∀ chId s, Committee.channel_id? comm = some chId →
           chId ≠ msgFix.channelId →
           Event.say chId s ∉
             [Event.say msgFix.channelId "This command is only available to delegates."]) :=
  ⟨by decide, by decide, by decide, by decide,
   c8_delegate_only_error_no_committee_post cfgFin msgFix none "x" envNoDelegate 1 5 [99]
     (by decide) (by decide) (by decide) (by decide)⟩

/-- Witness for the C4 theorem at the approving external fixture. -/
theorem c4_dm_iff_witness :
    Config.guild_id? cfgFin = some 1
    ∧ envWit.memberRoles = some [10, 5]
    ∧ Config.delegate_role_id? cfgFin = some 5
    ∧ ([10, 5] : List Nat).contains 5 = true
    ∧ findCommitteeByRole cfgFin.committees [10, 5] = Except.ok (some cFin)
    ∧ Committee.channel_id? cFin = some 20
    ∧ envWit.channelFound = true
    ∧ reactionWellFormed envWit.reaction = true
    ∧ (∃ tr, forward cfgFin msgFix (some 50) "hello" envWit = Except.ok tr
        ∧ ((∃ u s, Event.dm u s ∈ tr) ↔
             ((some 50 : Option Nat).isSome = true ∧ voteApproved envWit.reaction = true))
        ∧ ((some 50 : Option Nat) = none →
             tr = [Event.say 20 (announceInternal msgFix.authorId (envWit.sanitize "hello")),
                   Event.reply msgFix.id (confirmation cFin.name false)]
                 ++ relayTrace envWit.sanitize msgFix.channelId envWit.committeeMsgId
                     envWit.replies)
        ∧ ∃ pre, tr = pre ++ relayTrace envWit.sanitize msgFix.channelId
            envWit.committeeMsgId envWit.replies) :=
  ⟨by decide, by decide, by decide, by decide, by decide, by decide, by decide, by decide,
   c4_dm_iff_external_approved cfgFin msgFix (some 50) "hello" envWit 1 5 20 [10, 5] cFin
     (by decide) (by decide) (by decide) (by decide) (by decide) (by decide) (by decide)
     (by decide)⟩

/-- Witness for the C6 theorem at the approving external fixture. -/
theorem c6_payload_witness :
    Config.guild_id? cfgFin = some 1
    ∧ envWit.memberRoles = some [10, 5]
    ∧ Config.delegate_role_id? cfgFin = some 5
    ∧ ([10, 5] : List Nat).contains 5 = true
    ∧ findCommitteeByRole cfgFin.committees [10, 5] = Except.ok (some cFin)
    ∧ Committee.channel_id? cFin = some 20
    ∧ envWit.channelFound = true
    ∧ reactionWellFormed envWit.reaction = true
    ∧ (∃ tr, forward cfgFin msgFix (some 50) "hello" envWit = Except.ok tr
        ∧ ((∃ r, (some 50 : Option Nat) = some r ∧
              tr.head? = some (Event.say 20
                (announceExternal msgFix.authorId r (envWit.sanitize "hello"))))
           ∨ ((some 50 : Option Nat) = none ∧
              tr.head? = some (Event.say 20
                (announceInternal msgFix.authorId (envWit.sanitize "hello")))))
        ∧ (∀ u s, Event.dm u s ∈ tr → s = dmContent msgFix.authorId (envWit.sanitize "hello"))) :=
  ⟨by decide, by decide, by decide, by decide, by decide, by decide, by decide, by decide,
   c6_payload_sanitized_once cfgFin msgFix (some 50) "hello" envWit 1 5 20 [10, 5] cFin
     (by decide) (by decide) (by decide) (by decide) (by decide) (by decide) (by decide)
     (by decide)⟩

/-- Witness for the C9 theorem at the approving external fixture with one
targeting reply. -/
theorem c9_reply_relay_witness :
    Config.guild_id? cfgFin = some 1
    ∧ envWit.memberRoles = some [10, 5]
    ∧ Config.delegate_role_id? cfgFin = some 5
    ∧ ([10, 5] : List Nat).contains 5 = true
    ∧ findCommitteeByRole cfgFin.committees [10, 5] = Except.ok (some cFin)
    ∧ Committee.channel_id? cFin = some 20
    ∧ envWit.channelFound = true
    ∧ reactionWellFormed envWit.reaction = true
    ∧ (∃ pre tr, forward cfgFin msgFix (some 50) "hello" envWit = Except.ok tr
        ∧ tr = pre ++ relayTrace envWit.sanitize msgFix.channelId envWit.committeeMsgId
            envWit.replies
        ∧ (∀ rm ∈ envWit.replies, replyTargets envWit.committeeMsgId rm = true →
             Event.say msgFix.channelId
               (relayContent rm.authorId (envWit.sanitize rm.content)) ∈ tr
             ∧ Event.react rm.id SENT_REACTION ∈ tr)
        ∧ (∀ i, Event.react i SENT_REACTION
              ∈ relayTrace envWit.sanitize msgFix.channelId envWit.committeeMsgId
                  envWit.replies →
             ∃ rm, rm ∈ envWit.replies ∧ replyTargets envWit.committeeMsgId rm = true
               ∧ rm.id = i)
        ∧ (relayTrace envWit.sanitize msgFix.channelId envWit.committeeMsgId
            envWit.replies).countP isSentReact
            = (envWit.replies.filter (replyTargets envWit.committeeMsgId)).length) :=
  ⟨by decide, by decide, by decide, by decide, by decide, by decide, by decide, by decide,
   c9_reply_relay_sequence cfgFin msgFix (some 50) "hello" envWit 1 5 20 [10, 5] cFin
     (by decide) (by decide) (by decide) (by decide) (by decide) (by decide) (by decide)
     (by decide)⟩

/-- Witness for the C5 theorem at the approving external fixture. -/
theorem c5_first_reaction_witness :
    Config.guild_id? cfgFin = some 1
    ∧ envWit.memberRoles = some [10, 5]
    ∧ Config.delegate_role_id? cfgFin = some 5
    ∧ ([10, 5] : List Nat).contains 5 = true
    ∧ findCommitteeByRole cfgFin.committees [10, 5] = Except.ok (some cFin)
    ∧ Committee.channel_id? cFin = some 20
    ∧ envWit.channelFound = true
    ∧ ((∀ s ec ecs, envWit.reaction = some s → s.toList = ec :: ecs →
          ∃ tr, forward cfgFin msgFix (some 50) "hello" envWit = Except.ok tr
            ∧ (ec = POSITIVE_REACTION →
                 Event.reply envWit.committeeMsgId (outcomeMsg true) ∈ tr
                 ∧ Event.reply msgFix.id (outcomeMsg true) ∈ tr
                 ∧ Event.dm 50 (dmContent msgFix.authorId (envWit.sanitize "hello")) ∈ tr)
            ∧ (ec = NEGATIVE_REACTION →
                 Event.reply envWit.committeeMsgId (outcomeMsg false) ∈ tr
                 ∧ Event.reply msgFix.id (outcomeMsg false) ∈ tr
                 ∧ ∀ u s2, Event.dm u s2 ∉ tr)
            ∧ (ec ≠ POSITIVE_REACTION → ec ≠ NEGATIVE_REACTION →
                 Event.reply envWit.committeeMsgId "Invalid reaction; rejecting request." ∈ tr
                 ∧ Event.reply msgFix.id (outcomeMsg false) ∈ tr
                 ∧ ∀ u s2, Event.dm u s2 ∉ tr))
        ∧ (envWit.reaction = none →
          ∃ tr, forward cfgFin msgFix (some 50) "hello" envWit = Except.ok tr
            ∧ Event.reply envWit.committeeMsgId
                "No consensus reached in 10 minutes; rejecting request." ∈ tr
            ∧ Event.reply msgFix.id (outcomeMsg false) ∈ tr
            ∧ ∀ u s2, Event.dm u s2 ∉ tr)) :=
  ⟨by decide, by decide, by decide, by decide, by decide, by decide, by decide,
   c5_first_reaction_decides cfgFin msgFix 50 "hello" envWit 1 5 20 [10, 5] cFin
     (by decide) (by decide) (by decide) (by decide) (by decide) (by decide) (by decide)⟩
